import Mathlib

/-!
Shallow embedding of `react/features/recording/components/LiveStream/
AbstractStartLiveStreamDialog.js`: the abstract start-live-stream dialog
component, its lifecycle, its handlers and the Redux state-to-props mapping.

JavaScript conventions used by the embedding:
  * Flow optional fields (`?Array<Object>`, `?string`) are modelled with
    `Option`; `none` stands for the `undefined` the abstract layer itself
    produces (nothing in this file ever writes `null` into those fields).
  * Where the distinction between the JS values `undefined` and `null` is
    observable in an output (the `broadcastId` handed to `startRecording`),
    the value is modelled with `JSVal`, which keeps the two apart.
  * String truthiness (`if (s)`, `a || b`) is `s ≠ ""`.
  * External collaborators (analytics, the conference handle, the Google API
    client) are modelled as an effect log: operations return the list of
    collaborator invocations they perform, in order.
-/

namespace LiveStream

/-- A JavaScript value as far as this component observes it: `undefined`,
`null`, or a string. -/
inductive JSVal where
  | undef : JSVal
  | null : JSVal
  | str : String → JSVal
deriving DecidableEq, Repr

/-- A YouTube live-broadcast record. The dialog only reads `id` and
`boundStreamID` of the opaque records the external API supplies. -/
structure Broadcast where
  id : String
  boundStreamID : String
deriving DecidableEq, Repr

/-- Opaque external `JitsiConference` handle (the `_conference` prop); the
component only invokes its `startRecording` capability. -/
structure Conference where
  ref : String
deriving DecidableEq, Repr

/-- The component props (the flow type `Props` of the source, without the
injected `dispatch`/`t` function capabilities, which no embedded operation
reads). -/
structure Props where
  _conference : Conference
  _googleApiApplicationClientID : String
  _googleAPIState : Nat
  _googleProfileEmail : String
  _streamKey : String
deriving DecidableEq, Repr

/-- The component state (the flow type `State` of the source). -/
structure State where
  broadcasts : Option (List Broadcast)
  errorType : Option String
  selectedBoundStreamID : Option String
  streamKey : String
deriving DecidableEq, Repr

/-- A partial state object passed to `setState`: each field is either absent
from the merge object (`none`) or present with a value (`some v`, where `v`
itself may be the JS `undefined`, i.e. the inner `none`). -/
structure StatePatch where
  broadcasts : Option (Option (List Broadcast))
  errorType : Option (Option String)
  selectedBoundStreamID : Option (Option String)
  streamKey : Option String
deriving DecidableEq, Repr

/-- React `setState` object merge: a field present in the patch overwrites
the field of the state, an absent field is kept. -/
def mergeState (s : State) (p : StatePatch) : State :=
  { broadcasts := p.broadcasts.getD s.broadcasts
    errorType := p.errorType.getD s.errorType
    selectedBoundStreamID := p.selectedBoundStreamID.getD s.selectedBoundStreamID
    streamKey := p.streamKey.getD s.streamKey }

/-- A component instance: the `_isMounted` instance flag and `this.state`. -/
structure Component where
  _isMounted : Bool
  state : State
deriving DecidableEq, Repr

/-- The state installed by the constructor. -/
def initialState : State :=
  { broadcasts := none
    errorType := none
    selectedBoundStreamID := none
    streamKey := "" }

/-- The component as built by the constructor: initial state, `_isMounted`
still `false`. -/
def construct : Component :=
  { _isMounted := false, state := initialState }

/-- An analytics event as produced by the external factory
`createRecordingDialogEvent` of the analytics module; the factory is outside
this fragment and per the spec pairs its two arguments (action category,
action name). -/
structure RecordingDialogEvent where
  category : String
  action : String
deriving DecidableEq, Repr

/-- The external analytics event factory, modelled as pairing its
arguments. -/
def createRecordingDialogEvent (category action : String) :
    RecordingDialogEvent :=
  { category := category, action := action }

/-- The recording mode enum of the external `JitsiRecordingConstants`; the
dialog only uses `STREAM`. -/
inductive RecMode where
  | STREAM : RecMode
deriving DecidableEq, Repr

/-- The options object handed to `startRecording`. -/
structure StartRecordingOptions where
  broadcastId : JSVal
  mode : RecMode
  streamId : String
deriving DecidableEq, Repr

/-- An invocation of an external collaborator. -/
inductive Effect where
  | sendAnalytics : RecordingDialogEvent → Effect
  | startRecording : Conference → StartRecordingOptions → Effect
  | _onInitializeGoogleApi : Effect
deriving DecidableEq, Repr

/-- `componentDidMount`: sets `_isMounted` to `true`, then invokes
`_onInitializeGoogleApi` when `this.props._googleApiApplicationClientID` is
truthy (a non-empty string). -/
def componentDidMount (props : Props) (c : Component) :
    Component × List Effect :=
  ({ c with _isMounted := true },
    if props._googleApiApplicationClientID ≠ "" then
      [Effect._onInitializeGoogleApi]
    else [])

/-- `componentWillUnmount`: sets `_isMounted` to `false`. -/
def componentWillUnmount (c : Component) : Component :=
  { c with _isMounted := false }

/-- `_setStateIfMounted`: merges `newState` into `this.state` only when
`this._isMounted` holds. -/
def _setStateIfMounted (c : Component) (newState : StatePatch) : Component :=
  if c._isMounted then { c with state := mergeState c.state newState } else c

/-- `_onStreamKeyChange`: merges `{ streamKey, selectedBoundStreamID:
undefined }` through `_setStateIfMounted`. -/
def _onStreamKeyChange (c : Component) (streamKey : String) : Component :=
  _setStateIfMounted c
    { broadcasts := none
      errorType := none
      selectedBoundStreamID := some none
      streamKey := some streamKey }

/-- `_onCancel`: sends one analytics event built from
`('start', 'cancel.button')` and returns `true` to close the modal. -/
def _onCancel (c : Component) : Component × Bool × List Effect :=
  (c, true,
    [Effect.sendAnalytics (createRecordingDialogEvent "start" "cancel.button")])

/-- JS `a || b` on the two stream-key strings: the left operand unless it is
falsy (empty). -/
def jsOr (a b : String) : String :=
  if a = "" then b else a

/-- The `selectedBroadcastID` computation of `_onSubmit`: starts from `null`;
when `selectedBoundStreamID` is truthy, becomes
`broadcasts && broadcasts.find(...)` followed by
`selectedBroadcast && selectedBroadcast.id`, which is JS `undefined` when
`broadcasts` is `undefined` or no broadcast has the selected
`boundStreamID`, and the found broadcast's `id` otherwise. -/
def resolveBroadcastId (s : State) : JSVal :=
  match s.selectedBoundStreamID with
  | none => JSVal.null
  | some sid =>
    if sid = "" then JSVal.null
    else
      match s.broadcasts with
      | none => JSVal.undef
      | some bs =>
        match bs.find? (fun b => b.boundStreamID == sid) with
        | none => JSVal.undef
        | some b => JSVal.str b.id

/-- `_onSubmit`: resolves the effective key as
`this.state.streamKey || this.props._streamKey`; when falsy, returns `false`
with no effect; otherwise resolves `selectedBroadcastID`, sends one analytics
event built from `('start', 'confirm.button')`, invokes
`this.props._conference.startRecording({broadcastId, mode: STREAM,
streamId: key})` and returns `true`. -/
def _onSubmit (props : Props) (c : Component) :
    Component × Bool × List Effect :=
  let key := jsOr c.state.streamKey props._streamKey
  if key = "" then (c, false, [])
  else
    (c, true,
      [Effect.sendAnalytics (createRecordingDialogEvent "start" "confirm.button"),
        Effect.startRecording props._conference
          { broadcastId := resolveBroadcastId c.state
            mode := RecMode.STREAM
            streamId := key }])

/-- The operations that can be performed on a dialog instance: the two
lifecycle hooks, the three bound handlers, and a state merge reported
through `_setStateIfMounted` by an asynchronous completion. -/
inductive Op where
  | didMount : Op
  | willUnmount : Op
  | streamKeyChange : String → Op
  | cancel : Op
  | submit : Op
  | merge : StatePatch → Op
deriving DecidableEq, Repr

/-- The component reached after one operation (outputs and effects
discarded). -/
def step (props : Props) (c : Component) (op : Op) : Component :=
  match op with
  | Op.didMount => (componentDidMount props c).1
  | Op.willUnmount => componentWillUnmount c
  | Op.streamKeyChange k => _onStreamKeyChange c k
  | Op.cancel => (_onCancel c).1
  | Op.submit => (_onSubmit props c).1
  | Op.merge p => _setStateIfMounted c p

/-- The component reached after a sequence of operations. -/
def run (props : Props) (c : Component) (ops : List Op) : Component :=
  ops.foldl (step props) c

end LiveStream

namespace LiveStream

/-- The feature slice `state['features/base/conference']`; a leaf field a
store happens to lack reads as `undefined`. -/
structure BaseConferenceFeature where
  conference : Option Conference
deriving DecidableEq, Repr

/-- The feature slice `state['features/base/config']`. -/
structure BaseConfigFeature where
  googleApiApplicationClientID : Option String
deriving DecidableEq, Repr

/-- The feature slice `state['features/google-api']`. -/
structure GoogleApiFeature where
  googleAPIState : Option Nat
  profileEmail : Option String
deriving DecidableEq, Repr

/-- The feature slice `state['features/recording']`. -/
structure RecordingFeature where
  streamKey : Option String
deriving DecidableEq, Repr

/-- The global Redux store, restricted to the feature slices
`_mapStateToProps` touches. -/
structure ReduxState where
  baseConference : BaseConferenceFeature
  baseConfig : BaseConfigFeature
  googleApi : GoogleApiFeature
  recording : RecordingFeature
deriving DecidableEq, Repr

/-- The props object `_mapStateToProps` returns; every field may be the JS
`undefined` when the store lacks the leaf field it is read from. -/
structure MappedProps where
  _conference : Option Conference
  _googleApiApplicationClientID : Option String
  _googleAPIState : Option Nat
  _googleProfileEmail : Option String
  _streamKey : Option String
deriving DecidableEq, Repr

/-- `_mapStateToProps`: the pure projection of the five leaf fields the
source reads from the store into props. -/
def _mapStateToProps (state : ReduxState) : MappedProps :=
  { _conference := state.baseConference.conference
    _googleApiApplicationClientID :=
      state.baseConfig.googleApiApplicationClientID
    _googleAPIState := state.googleApi.googleAPIState
    _googleProfileEmail := state.googleApi.profileEmail
    _streamKey := state.recording.streamKey }

/-- The (feature slice, leaf field) pairs `_mapStateToProps` reads, one per
property access in its body. -/
def _mapStateToPropsFields : List (String × String) :=
  [("features/base/conference", "conference"),
    ("features/base/config", "googleApiApplicationClientID"),
    ("features/google-api", "googleAPIState"),
    ("features/google-api", "profileEmail"),
    ("features/recording", "streamKey")]

/-- A store in which every leaf field `_mapStateToProps` reads is missing. -/
def emptyReduxState : ReduxState :=
  { baseConference := { conference := none }
    baseConfig := { googleApiApplicationClientID := none }
    googleApi := { googleAPIState := none, profileEmail := none }
    recording := { streamKey := none } }

theorem run_cons (props : Props) (c : Component) (op : Op) (ops : List Op) :
    run props c (op :: ops) = run props (step props c op) ops := rfl

theorem step_preserves_unmounted (props : Props) (c : Component) (op : Op)
    (hop : op ≠ Op.didMount) (hc : c._isMounted = false) :
    (step props c op)._isMounted = false := by
  cases op with
  | didMount => exact absurd rfl hop
  | willUnmount => simp [step, componentWillUnmount]
  | streamKeyChange k =>
    simp [step, _onStreamKeyChange, _setStateIfMounted, hc]
  | cancel => simpa [step, _onCancel] using hc
  | submit =>
    simp only [step, _onSubmit]
    split <;> simpa using hc
  | merge p => simp [step, _setStateIfMounted, hc]

theorem run_preserves_unmounted (props : Props) :
    ∀ (ops : List Op) (c : Component), Op.didMount ∉ ops →
      c._isMounted = false → (run props c ops)._isMounted = false := by
  intro ops
  induction ops with
  | nil => intro c _ hc; simpa [run] using hc
  | cons op rest ih =>
    intro c h hc
    have hop : op ≠ Op.didMount := fun he => h (he ▸ List.mem_cons_self op rest)
    have hrest : Op.didMount ∉ rest := fun hm => h (List.mem_cons_of_mem op hm)
    rw [run_cons]
    exact ih _ hrest (step_preserves_unmounted props c op hop hc)

end LiveStream

namespace LiveStream

/-- Concrete props used to evaluate theorems on closed inputs. -/
def propsA : Props :=
  { _conference := { ref := "conf" }
    _googleApiApplicationClientID := ""
    _googleAPIState := 0
    _googleProfileEmail := ""
    _streamKey := "" }

/-- Claim C1: in any sequence of operations on a dialog instance, a
state-merge call (via `_setStateIfMounted`) issued after
`componentWillUnmount` has run — the React lifecycle never re-mounts an
unmounted instance, so no `componentDidMount` occurs in between and the
`_isMounted` flag stays `false` — leaves the whole `DialogState`
(`broadcasts`, `errorType`, `selectedBoundStreamID`, `streamKey`)
unchanged. -/
theorem stateMerge_after_unmount_noop (props : Props) (c : Component)
    (ops : List Op) (h : Op.didMount ∉ ops) (p : StatePatch) :
    (_setStateIfMounted (run props (componentWillUnmount c) ops) p).state
      = (run props (componentWillUnmount c) ops).state := by
  have hum : (run props (componentWillUnmount c) ops)._isMounted = false :=
    run_preserves_unmounted props ops (componentWillUnmount c) h
      (by simp [componentWillUnmount])
  simp [_setStateIfMounted, hum]

/-- Claim C1, concrete witness: after unmounting, a key change, a cancel and
a direct merge attempt leave the state untouched. -/
theorem stateMerge_after_unmount_noop_witness :
    Op.didMount ∉ [Op.streamKeyChange "abc", Op.cancel] ∧
      (_setStateIfMounted
          (run propsA (componentWillUnmount construct)
            [Op.streamKeyChange "abc", Op.cancel])
          { broadcasts := none
            errorType := some (some "boom")
            selectedBoundStreamID := none
            streamKey := some "k" }).state
        = (run propsA (componentWillUnmount construct)
            [Op.streamKeyChange "abc", Op.cancel]).state :=
  ⟨by decide,
    stateMerge_after_unmount_noop propsA construct
      [Op.streamKeyChange "abc", Op.cancel] (by decide) _⟩

/-- Claim C2: when both the typed-in key and the props-supplied key are
empty, `_onSubmit` returns `false` (do not close), performs no effect at all
(no analytics, no `startRecording`) and leaves the component, hence the
`DialogState`, unchanged. -/
theorem onSubmit_no_key_refuses (props : Props) (c : Component)
    (hs : c.state.streamKey = "") (hp : props._streamKey = "") :
    _onSubmit props c = (c, false, []) := by
  simp [_onSubmit, jsOr, hs, hp]

/-- Claim C2, concrete witness: the freshly constructed dialog with empty
props key refuses to close and has no effect. -/
theorem onSubmit_no_key_refuses_witness :
    construct.state.streamKey = "" ∧ propsA._streamKey = "" ∧
      _onSubmit propsA construct = (construct, false, []) :=
  ⟨rfl, rfl, onSubmit_no_key_refuses propsA construct rfl rfl⟩

/-- Claim C3: with a typed key `"XYZ"` and no selected bound stream ID,
`_onSubmit` returns `true` (close) and the effect log is exactly one
analytics event followed by exactly one `startRecording` invocation with
`{broadcastId: null, mode: STREAM, streamId: "XYZ"}`. -/
theorem onSubmit_typed_key_starts_stream (props : Props) (c : Component)
    (hk : c.state.streamKey = "XYZ")
    (hsel : c.state.selectedBoundStreamID = none) :
    _onSubmit props c =
      (c, true,
        [Effect.sendAnalytics
            (createRecordingDialogEvent "start" "confirm.button"),
          Effect.startRecording props._conference
            { broadcastId := JSVal.null
              mode := RecMode.STREAM
              streamId := "XYZ" }]) := by
  simp [_onSubmit, jsOr, resolveBroadcastId, hk, hsel]

/-- Concrete component for the claim C3 witness: mounted, typed key
`"XYZ"`, nothing selected. -/
def c3comp : Component :=
  { _isMounted := true
    state :=
      { broadcasts := none
        errorType := none
        selectedBoundStreamID := none
        streamKey := "XYZ" } }

/-- Claim C3, concrete witness. -/
theorem onSubmit_typed_key_starts_stream_witness :
    c3comp.state.streamKey = "XYZ" ∧
      c3comp.state.selectedBoundStreamID = none ∧
      _onSubmit propsA c3comp =
        (c3comp, true,
          [Effect.sendAnalytics
              (createRecordingDialogEvent "start" "confirm.button"),
            Effect.startRecording propsA._conference
              { broadcastId := JSVal.null
                mode := RecMode.STREAM
                streamId := "XYZ" }]) :=
  ⟨rfl, rfl, onSubmit_typed_key_starts_stream propsA c3comp rfl rfl⟩

end LiveStream

namespace LiveStream

/-- Claim C4: with a non-empty effective key, selected bound stream ID
`"b1"` and broadcasts `[{id:"1", boundStreamID:"b1"}, {id:"2",
boundStreamID:"b2"}]`, the broadcast id passed to `startRecording` is
`"1"`, the id of the first (here unique) broadcast whose `boundStreamID`
equals the selection; the lookup is `Array.find`, i.e. first match of a
linear search. -/
theorem onSubmit_resolves_first_matching_broadcast (props : Props)
    (c : Component)
    (hsel : c.state.selectedBoundStreamID = some "b1")
    (hb : c.state.broadcasts =
      some [{ id := "1", boundStreamID := "b1" },
            { id := "2", boundStreamID := "b2" }])
    (hk : jsOr c.state.streamKey props._streamKey ≠ "") :
    _onSubmit props c =
      (c, true,
        [Effect.sendAnalytics
            (createRecordingDialogEvent "start" "confirm.button"),
          Effect.startRecording props._conference
            { broadcastId := JSVal.str "1"
              mode := RecMode.STREAM
              streamId := jsOr c.state.streamKey props._streamKey }]) ∧
    ([{ id := "1", boundStreamID := "b1" },
      { id := "2", boundStreamID := "b2" }] : List Broadcast).find?
        (fun b => b.boundStreamID == "b1") =
      some { id := "1", boundStreamID := "b1" } := by
  refine ⟨?_, by decide⟩
  simp [_onSubmit, resolveBroadcastId, hsel, hb, hk, List.find?]

/-- Concrete component for the claim C4 witness. -/
def c4comp : Component :=
  { _isMounted := true
    state :=
      { broadcasts :=
          some [{ id := "1", boundStreamID := "b1" },
                { id := "2", boundStreamID := "b2" }]
        errorType := none
        selectedBoundStreamID := some "b1"
        streamKey := "XYZ" } }

/-- Claim C4, concrete witness. -/
theorem onSubmit_resolves_first_matching_broadcast_witness :
    c4comp.state.selectedBoundStreamID = some "b1" ∧
      jsOr c4comp.state.streamKey propsA._streamKey ≠ "" ∧
      _onSubmit propsA c4comp =
        (c4comp, true,
          [Effect.sendAnalytics
              (createRecordingDialogEvent "start" "confirm.button"),
            Effect.startRecording propsA._conference
              { broadcastId := JSVal.str "1"
                mode := RecMode.STREAM
                streamId := jsOr c4comp.state.streamKey propsA._streamKey }]) :=
  ⟨rfl, by decide,
    (onSubmit_resolves_first_matching_broadcast propsA c4comp rfl rfl
      (by decide)).1⟩

/-- Concrete component on which claim C5 as stated fails: selection `"b1"`,
but the only broadcast is bound to `"b2"`. -/
def c5comp : Component :=
  { _isMounted := true
    state :=
      { broadcasts := some [{ id := "2", boundStreamID := "b2" }]
        errorType := none
        selectedBoundStreamID := some "b1"
        streamKey := "XYZ" } }

/-- Claim C5, counterexample: with a selection but no matching broadcast the
code hands `startRecording` a `broadcastId` that is the JS `undefined`
(the value of `selectedBroadcast && selectedBroadcast.id`), not `null` as
the claim states. -/
theorem onSubmit_no_match_null_counterexample :
    (_onSubmit propsA c5comp).2.2 =
      [Effect.sendAnalytics
          (createRecordingDialogEvent "start" "confirm.button"),
        Effect.startRecording propsA._conference
          { broadcastId := JSVal.undef
            mode := RecMode.STREAM
            streamId := "XYZ" }] ∧
    ¬ (_onSubmit propsA c5comp).2.2 =
      [Effect.sendAnalytics
          (createRecordingDialogEvent "start" "confirm.button"),
        Effect.startRecording propsA._conference
          { broadcastId := JSVal.null
            mode := RecMode.STREAM
            streamId := "XYZ" }] := by
  decide

/-- Claim C5 as amended: with a non-empty effective key and a truthy
selected bound stream ID but no matching broadcast (`broadcasts` absent or
containing no broadcast bound to the selection), `_onSubmit` resolves the
broadcast id to the JS `undefined` (not `null`), still invokes
`startRecording` with it (submission is not blocked) and returns `true`
(close). -/
theorem onSubmit_no_match_undefined_broadcastId (props : Props)
    (c : Component) (sid : String)
    (hsel : c.state.selectedBoundStreamID = some sid) (hsid : sid ≠ "")
    (hnm : ∀ bs, c.state.broadcasts = some bs →
      bs.find? (fun b => b.boundStreamID == sid) = none)
    (hk : jsOr c.state.streamKey props._streamKey ≠ "") :
    _onSubmit props c =
      (c, true,
        [Effect.sendAnalytics
            (createRecordingDialogEvent "start" "confirm.button"),
          Effect.startRecording props._conference
            { broadcastId := JSVal.undef
              mode := RecMode.STREAM
              streamId := jsOr c.state.streamKey props._streamKey }]) := by
  have hres : resolveBroadcastId c.state = JSVal.undef := by
    unfold resolveBroadcastId
    rw [hsel]
    simp only [hsid, if_false]
    cases hbs : c.state.broadcasts with
    | none => rfl
    | some bs => simp [hnm bs hbs]
  simp [_onSubmit, hk, hres]

/-- Claim C5 (amended), concrete witness. -/
theorem onSubmit_no_match_undefined_broadcastId_witness :
    c5comp.state.selectedBoundStreamID = some "b1" ∧
      _onSubmit propsA c5comp =
        (c5comp, true,
          [Effect.sendAnalytics
              (createRecordingDialogEvent "start" "confirm.button"),
            Effect.startRecording propsA._conference
              { broadcastId := JSVal.undef
                mode := RecMode.STREAM
                streamId := jsOr c5comp.state.streamKey propsA._streamKey }]) :=
  ⟨rfl,
    onSubmit_no_match_undefined_broadcastId propsA c5comp "b1" rfl (by decide)
      (fun bs hbs => by
        have hb : ([{ id := "2", boundStreamID := "b2" }] : List Broadcast)
            = bs := Option.some.inj hbs
        rw [hb.symm]
        decide)
      (by decide)⟩

end LiveStream

namespace LiveStream

/-- Claim C6: `_onCancel` returns `true` (close) and its effect log is
exactly one analytics event, built by the factory from category `"start"`
and action `"cancel.button"`; the component is untouched and there is no
other effect. -/
theorem onCancel_closes_with_one_event (c : Component) :
    _onCancel c =
      (c, true,
        [Effect.sendAnalytics
          (createRecordingDialogEvent "start" "cancel.button")]) := rfl

/-- Claim C7: on a mounted dialog, `_onStreamKeyChange newKey` yields a
state whose `streamKey` is `newKey` and whose `selectedBoundStreamID` is
cleared to `undefined`, with `broadcasts` and `errorType` unchanged; the
mount flag itself is untouched. The merge goes through the
`_isMounted`-gated `_setStateIfMounted`. -/
theorem onStreamKeyChange_updates_key_clears_selection (c : Component)
    (newKey : String) (hm : c._isMounted = true) :
    _onStreamKeyChange c newKey =
      { _isMounted := true
        state :=
          { broadcasts := c.state.broadcasts
            errorType := c.state.errorType
            selectedBoundStreamID := none
            streamKey := newKey } } := by
  simp [_onStreamKeyChange, _setStateIfMounted, hm, mergeState]

/-- Claim C7, concrete witness: changing the key on a mounted dialog with a
prior selection. -/
theorem onStreamKeyChange_updates_key_clears_selection_witness :
    c5comp._isMounted = true ∧
      _onStreamKeyChange c5comp "abc" =
        { _isMounted := true
          state :=
            { broadcasts := c5comp.state.broadcasts
              errorType := c5comp.state.errorType
              selectedBoundStreamID := none
              streamKey := "abc" } } :=
  ⟨rfl, onStreamKeyChange_updates_key_clears_selection c5comp "abc" rfl⟩

/-- Claim C8: `componentDidMount` sets the `_isMounted` flag to `true` and
its effect log is the single `_onInitializeGoogleApi` invocation exactly
when the Google API application client ID prop is truthy (non-empty), and
empty exactly when that prop is empty. -/
theorem componentDidMount_sets_flag_and_inits_api (props : Props)
    (c : Component) :
    (componentDidMount props c).1 = { c with _isMounted := true } ∧
    ((componentDidMount props c).2 = [Effect._onInitializeGoogleApi] ↔
      props._googleApiApplicationClientID ≠ "") ∧
    ((componentDidMount props c).2 = [] ↔
      props._googleApiApplicationClientID = "") := by
  by_cases h : props._googleApiApplicationClientID = "" <;>
    simp [componentDidMount, h]

/-- Claim C9, counterexample: the body of `_mapStateToProps` reads five leaf
fields of the store, not six as the claim counts. -/
theorem mapStateToProps_six_fields_counterexample :
    _mapStateToPropsFields.length = 5 ∧
      ¬ _mapStateToPropsFields.length = 6 := by
  decide

/-- Claim C9 as amended: `_mapStateToProps` reads five named leaf fields of
the global store as a pure read-only projection with no validation — each
prop equals the store field it is read from, so a store missing a leaf
field (here: all of them) yields `undefined` for the corresponding prop,
and no store mutation is possible (the map is a pure function of the
store). -/
theorem mapStateToProps_projection (s : ReduxState) :
    (_mapStateToProps s)._conference = s.baseConference.conference ∧
    (_mapStateToProps s)._googleApiApplicationClientID =
      s.baseConfig.googleApiApplicationClientID ∧
    (_mapStateToProps s)._googleAPIState = s.googleApi.googleAPIState ∧
    (_mapStateToProps s)._googleProfileEmail = s.googleApi.profileEmail ∧
    (_mapStateToProps s)._streamKey = s.recording.streamKey ∧
    _mapStateToPropsFields.length = 5 ∧
    _mapStateToProps emptyReduxState =
      { _conference := none
        _googleApiApplicationClientID := none
        _googleAPIState := none
        _googleProfileEmail := none
        _streamKey := none } :=
  ⟨rfl, rfl, rfl, rfl, rfl, rfl, rfl⟩

/-- Claim C10: `_onSubmit` never mutates the component (hence the
`DialogState`) on any path; its effect log is empty on the refuse path
(falsy effective key) and exactly the single analytics emission followed by
the single `startRecording` invocation on the close path. -/
theorem onSubmit_frame (props : Props) (c : Component) :
    (_onSubmit props c).1 = c ∧
    (_onSubmit props c).2.2 =
      (if jsOr c.state.streamKey props._streamKey = "" then ([] : List Effect)
       else
        [Effect.sendAnalytics
            (createRecordingDialogEvent "start" "confirm.button"),
          Effect.startRecording props._conference
            { broadcastId := resolveBroadcastId c.state
              mode := RecMode.STREAM
              streamId := jsOr c.state.streamKey props._streamKey }]) := by
  constructor <;> (simp only [_onSubmit]; split <;> simp_all)

end LiveStream
